import Mathlib

/-!
Shallow embedding of foobar-dupefile.py.

Files are modelled by their directory (a list of path components) together
with a file name split into stem and suffix, mirroring pathlib, where
stem is the name without the final extension and suffix is the final
extension including its leading dot (empty when there is none).
The filesystem is the list of existing files; directory creation
(os.makedirs, Path.mkdir) always succeeds and is not tracked, since no
claim observes directories themselves.
-/

namespace FoobarDupefile

/-- Models Python str.lower() character by character. -/
def strLower (s : String) : String := ⟨s.data.map Char.toLower⟩

/-- Models the Python slice s[1:], dropping the first character. -/
def strTail (s : String) : String := ⟨s.data.drop 1⟩

/-- Models Python str.endswith. -/
def strEndsWith (s p : String) : Bool := p.data.isSuffixOf s.data

/-- A file name as pathlib decomposes it: stem plus suffix (with dot). -/
structure FileName where
  stem : String
  suffix : String
deriving DecidableEq

/-- The full file name, stem followed by suffix. -/
def FileName.name (f : FileName) : String := f.stem ++ f.suffix

/-- A file on disk: its parent directory components and its name. -/
structure FsEntry where
  dir : List String
  fn : FileName
deriving DecidableEq

/-- Whether a file with the given parent directory and full name exists,
modelling Path.exists on the file set. -/
def pathExists (fs : List FsEntry) (d : List String) (n : String) : Bool :=
  fs.any (fun e => e.dir == d && e.fn.name == n)

/-- Remove every entry at the given parent directory and full name,
modelling unlink or the disappearance of a moved source. -/
def removePath (fs : List FsEntry) (d : List String) (n : String) : List FsEntry :=
  fs.filter (fun e => !(e.dir == d && e.fn.name == n))

/-- Embedding of find_duplicate_pairs (src/foobar-dupefile.py lines 45-68).
The Python returns a tuple (found, path); we return the path as an
Option (parent directory, full name).  The cross-extension branch runs
when handle_different_extensions is truthy AND target_extension is a
non-empty string; it requires the candidate suffix, lowercased and with
the dot dropped, to equal target_extension, then scans the parent
directory entries (parent.iterdir) for the first entry with equal stem
and a different lowercased extension.  Otherwise the exact-suffix branch
checks whether the sibling named stem ++ " (1)" ++ suffix exists. -/
def find_duplicate_pairs (file_path : FsEntry) (fs : List FsEntry)
    (handle_different_extensions : Bool) (target_extension : String) :
    Option (List String × String) :=
  let name := file_path.fn.stem
  let suffix := strTail (strLower file_path.fn.suffix)
  let parent := file_path.dir
  if handle_different_extensions && !(target_extension == "") then
    if suffix == target_extension then
      match (fs.filter (fun e => e.dir == parent)).find?
          (fun other => other.fn.stem == name &&
            !(strTail (strLower other.fn.suffix) == target_extension)) with
      | some other => some (other.dir, other.fn.name)
      | none => none
    else none
  else
    let duplicate_name := name ++ " (1)" ++ file_path.fn.suffix
    if pathExists fs parent duplicate_name then some (parent, duplicate_name)
    else none

/-- The resolution action: ACTION is either delete or move. -/
inductive Action where
  | delete : Action
  | move : Action
deriving DecidableEq

/-- Embedding of handle_file (src/foobar-dupefile.py lines 70-92).
delete: Path.unlink removes the original, raising (none) when the path
is missing.  move: the original parent directory must lie under
SOURCE_PATH (Path.relative_to raises otherwise), the relative directory
is recreated under target_path, and shutil.move relocates the original
to target_path/relative/name, replacing any file already there and
raising (none) when the source is missing.  The duplicate_path argument
is only logged: the keeper is never renamed or otherwise touched. -/
def handle_file (file_path : FsEntry) (_duplicate_path : List String × String)
    (action : Action) (target_path : List String) (source_path : List String)
    (fs : List FsEntry) : Option (List FsEntry) :=
  match action with
  | .delete =>
    if pathExists fs file_path.dir file_path.fn.name then
      some (removePath fs file_path.dir file_path.fn.name)
    else none
  | .move =>
    if List.isPrefixOf source_path file_path.dir then
      let rel := file_path.dir.drop source_path.length
      let new_target := target_path ++ rel
      if pathExists fs file_path.dir file_path.fn.name then
        some (⟨new_target, file_path.fn⟩ ::
          removePath (removePath fs file_path.dir file_path.fn.name)
            new_target file_path.fn.name)
      else none
    else none

/-- The matcher process_directory actually uses: find_duplicate_pairs
against a fixed filesystem, which (being a pure read) never raises. -/
def matcherOf (fs : List FsEntry) (handle_different_extensions : Bool)
    (target_extension : String) :
    FsEntry → Except String (Option (List String × String)) :=
  fun f => .ok (find_duplicate_pairs f fs handle_different_extensions target_extension)

/-- Embedding of the collection loop of process_directory
(src/foobar-dupefile.py lines 107-116).  The walk output is the list of
candidate files; a file whose stem ends with " (1)" is skipped without
consulting the matcher.  The matcher may raise (Except.error); the
enclosing try of process_directory is OUTSIDE this loop, so an error on
any candidate aborts the whole collection with that error. -/
def collectPairs (m : FsEntry → Except String (Option (List String × String))) :
    List FsEntry → Except String (List (FsEntry × (List String × String)))
  | [] => .ok []
  | f :: rest =>
    if strEndsWith f.fn.stem " (1)" then collectPairs m rest
    else
      match m f with
      | .error e => .error e
      | .ok none => collectPairs m rest
      | .ok (some d) =>
        match collectPairs m rest with
        | .error e => .error e
        | .ok ps => .ok ((f, d) :: ps)

/-- Embedding of the resolution loop of process_directory
(src/foobar-dupefile.py lines 119-120).  handle_file re-raises any
error it hits, and the enclosing try of process_directory is outside
the loop, so a failure on one pair aborts the run without attempting
the remaining pairs. -/
def resolvePairs (action : Action) (target_path source_path : List String) :
    List (FsEntry × (List String × String)) → List FsEntry →
    Except String (List FsEntry)
  | [], fs => .ok fs
  | (orig, dup) :: rest, fs =>
    match handle_file orig dup action target_path source_path fs with
    | none => .error "resolve"
    | some fs' => resolvePairs action target_path source_path rest fs'

/-- Embedding of process_directory (src/foobar-dupefile.py lines 94-126):
collect all pairs by matching every walked candidate against the initial
filesystem, then resolve the collected pairs in order. -/
def process_directory (action : Action) (target_path source_path : List String)
    (handle_different_extensions : Bool) (target_extension : String)
    (walked : List FsEntry) (fs : List FsEntry) : Except String (List FsEntry) :=
  match collectPairs (matcherOf fs handle_different_extensions target_extension) walked with
  | .error e => .error e
  | .ok pairs => resolvePairs action target_path source_path pairs fs

/-- A matcher that raises on the candidate with stem "bad" (modelling a
filesystem error surfaced while pairing that file, e.g. an unreadable
parent directory) and pairs every other candidate with its marked
sibling name. -/
def failingMatcher : FsEntry → Except String (Option (List String × String)) :=
  fun f =>
    if f.fn.stem == "bad" then .error "boom"
    else .ok (some (f.dir, f.fn.stem ++ " (1)" ++ f.fn.suffix))

/-- A matcher that pairs nothing. -/
def quietMatcher : FsEntry → Except String (Option (List String × String)) :=
  fun _ => .ok none

/-- A matcher that raises exactly on files whose stem carries the
duplicate marker and pairs nothing otherwise.  It agrees with
quietMatcher on every file the collection loop may legally hand to a
matcher. -/
def markerTrapMatcher : FsEntry → Except String (Option (List String × String)) :=
  fun f => if strEndsWith f.fn.stem " (1)" then .error "boom" else .ok none

example : find_duplicate_pairs ⟨["src"], ⟨"a", ".txt"⟩⟩
    [⟨["src"], ⟨"a", ".txt"⟩⟩, ⟨["src"], ⟨"a (1)", ".txt"⟩⟩] false "" =
    some (["src"], "a (1).txt") := by decide

example : find_duplicate_pairs ⟨["src"], ⟨"report", ".docx"⟩⟩
    [⟨["src"], ⟨"report", ".docx"⟩⟩, ⟨["src"], ⟨"report", ".pdf"⟩⟩] true "docx" =
    some (["src"], "report.pdf") := by decide

example : handle_file ⟨["src"], ⟨"a", ".txt"⟩⟩ (["src"], "a (1).txt") .move
    ["out"] ["src"]
    [⟨["src"], ⟨"a", ".txt"⟩⟩, ⟨["src"], ⟨"a (1)", ".txt"⟩⟩] =
    some [⟨["out"], ⟨"a", ".txt"⟩⟩, ⟨["src"], ⟨"a (1)", ".txt"⟩⟩] := by decide

/-- Membership after removePath: the entry survives iff it was present
and is not at the removed location. -/
theorem mem_removePath {e : FsEntry} {fs : List FsEntry} {d : List String}
    {n : String} :
    e ∈ removePath fs d n ↔ e ∈ fs ∧ ¬(e.dir = d ∧ e.fn.name = n) := by
  simp [removePath, List.mem_filter, not_and, Decidable.imp_iff_not_or]

/-- pathExists is the existence of an entry at that location. -/
theorem pathExists_iff {fs : List FsEntry} {d : List String} {n : String} :
    pathExists fs d n = true ↔ ∃ e ∈ fs, e.dir = d ∧ e.fn.name = n := by
  simp [pathExists, List.any_eq_true]

/-- Removing a path makes it absent. -/
theorem pathExists_removePath_self (fs : List FsEntry) (d : List String)
    (n : String) : pathExists (removePath fs d n) d n = false := by
  rw [Bool.eq_false_iff]
  intro h
  rcases pathExists_iff.mp h with ⟨e, he, hd, hn⟩
  exact (mem_removePath.mp he).2 ⟨hd, hn⟩

/-- Removing one path leaves the existence of every other path as it was. -/
theorem pathExists_removePath_other (fs : List FsEntry) (d n d' n')
    (h : ¬(d' = d ∧ n' = n)) :
    pathExists (removePath fs d n) d' n' = pathExists fs d' n' := by
  rw [Bool.eq_iff_iff, pathExists_iff, pathExists_iff]
  constructor
  · rintro ⟨e, he, hd, hn⟩
    exact ⟨e, (mem_removePath.mp he).1, hd, hn⟩
  · rintro ⟨e, he, hd, hn⟩
    refine ⟨e, mem_removePath.mpr ⟨he, ?_⟩, hd, hn⟩
    rintro ⟨h1, h2⟩
    exact h (by constructor <;> simp_all)

/-- Every pair the collection loop emits comes from a walked file whose
stem does not end with the duplicate marker, and records exactly the
answer the matcher gave for that file. -/
theorem collectPairs_sound
    (m : FsEntry → Except String (Option (List String × String)))
    (files : List FsEntry) (pairs : List (FsEntry × (List String × String)))
    (h : collectPairs m files = .ok pairs) :
    ∀ p ∈ pairs, p.1 ∈ files ∧ strEndsWith p.1.fn.stem " (1)" = false ∧
      m p.1 = .ok (some p.2) := by
  induction files generalizing pairs with
  | nil =>
    simp only [collectPairs] at h
    cases h
    simp
  | cons f rest ih =>
    simp only [collectPairs] at h
    by_cases hf : strEndsWith f.fn.stem " (1)" = true
    · rw [if_pos hf] at h
      intro p hp
      rcases ih pairs h p hp with ⟨h1, h2, h3⟩
      exact ⟨List.mem_cons_of_mem _ h1, h2, h3⟩
    · rw [if_neg hf] at h
      rcases hm : m f with e | od
      · rw [hm] at h; cases h
      · rw [hm] at h
        cases od with
        | none =>
          intro p hp
          rcases ih pairs h p hp with ⟨h1, h2, h3⟩
          exact ⟨List.mem_cons_of_mem _ h1, h2, h3⟩
        | some d =>
          rcases hr : collectPairs m rest with e' | ps
          · rw [hr] at h; cases h
          · rw [hr] at h
            cases h
            intro p hp
            rcases List.mem_cons.mp hp with hp | hp
            · subst hp
              exact ⟨List.mem_cons_self _ _, Bool.eq_false_iff.mpr hf, hm⟩
            · rcases ih ps hr p hp with ⟨h1, h2, h3⟩
              exact ⟨List.mem_cons_of_mem _ h1, h2, h3⟩

/-- Matchers that agree on every marker-free file drive the collection
loop to the same outcome: marked files are never consulted. -/
theorem collectPairs_congr
    (m m' : FsEntry → Except String (Option (List String × String)))
    (files : List FsEntry)
    (hagree : ∀ f : FsEntry, strEndsWith f.fn.stem " (1)" = false → m f = m' f) :
    collectPairs m files = collectPairs m' files := by
  induction files with
  | nil => rfl
  | cons f rest ih =>
    simp only [collectPairs]
    by_cases hf : strEndsWith f.fn.stem " (1)" = true
    · rw [if_pos hf, if_pos hf, ih]
    · rw [if_neg hf, if_neg hf, hagree f (Bool.eq_false_iff.mpr hf), ih]

/-- C2: under ExactSuffixSiblingMode, for a file whose stem does not end
with the duplicate marker, find_duplicate_pairs returns the sibling named
stem ++ " (1)" ++ suffix in the same parent directory exactly when that
sibling exists, and returns nothing otherwise; no other path is ever
returned in this mode. -/
theorem c2_exact_mode_returns_marked_sibling (fp : FsEntry) (fs : List FsEntry)
    (te : String) (h : strEndsWith fp.fn.stem " (1)" = false) :
    find_duplicate_pairs fp fs false te =
      if pathExists fs fp.dir (fp.fn.stem ++ " (1)" ++ fp.fn.suffix) then
        some (fp.dir, fp.fn.stem ++ " (1)" ++ fp.fn.suffix)
      else none := by
  simp [find_duplicate_pairs]

/-- Witness for C2 at the concrete pair a.txt with sibling a (1).txt. -/
theorem c2_witness :
    find_duplicate_pairs ⟨["d"], ⟨"a", ".txt"⟩⟩ [⟨["d"], ⟨"a (1)", ".txt"⟩⟩]
        false "" =
      if pathExists [⟨["d"], ⟨"a (1)", ".txt"⟩⟩] ["d"] ("a" ++ " (1)" ++ ".txt") then
        some (["d"], "a" ++ " (1)" ++ ".txt")
      else none :=
  c2_exact_mode_returns_marked_sibling ⟨["d"], ⟨"a", ".txt"⟩⟩
    [⟨["d"], ⟨"a (1)", ".txt"⟩⟩] "" (by decide)

/-- C3: with CrossExtensionMode active and a non-empty configured target
extension, a file whose own extension differs case-insensitively from the
target extension is matched to nothing, whatever the directory holds. -/
theorem c3_cross_mode_extension_mismatch (fp : FsEntry) (fs : List FsEntry)
    (te : String) (hte : te ≠ "")
    (h : strLower (strTail (strLower fp.fn.suffix)) ≠ strLower te) :
    find_duplicate_pairs fp fs true te = none := by
  have hne : strTail (strLower fp.fn.suffix) ≠ te := by
    intro he
    exact h (by rw [he])
  simp [find_duplicate_pairs, hte, hne]

/-- Witness for C3 at the concrete file a.pdf with target extension docx
and a same-stem sibling present. -/
theorem c3_witness :
    find_duplicate_pairs ⟨["d"], ⟨"a", ".pdf"⟩⟩
      [⟨["d"], ⟨"a", ".pdf"⟩⟩, ⟨["d"], ⟨"a", ".docx"⟩⟩] true "docx" = none :=
  c3_cross_mode_extension_mismatch ⟨["d"], ⟨"a", ".pdf"⟩⟩
    [⟨["d"], ⟨"a", ".pdf"⟩⟩, ⟨["d"], ⟨"a", ".docx"⟩⟩] "docx" (by decide) (by decide)

/-- C10: an enabled cross-extension flag with an empty target extension
is truthy-false in Python, so find_duplicate_pairs silently falls back to
the exact-suffix branch, behaving exactly as with the flag disabled. -/
theorem c10_empty_target_extension_falls_back (fp : FsEntry)
    (fs : List FsEntry) (te : String) :
    find_duplicate_pairs fp fs true "" = find_duplicate_pairs fp fs false te := by
  rfl

/-- C6: a Delete resolution that succeeds removes the original path and
changes the existence of no other path; in particular the keeper stays
at its own name, marker or differing extension included, unrenamed. -/
theorem c6_delete_removes_original_keeps_keeper (orig : FsEntry)
    (dup : List String × String) (tp sp : List String)
    (fs fs' : List FsEntry) (kd : List String) (kn : String)
    (hk : ¬(kd = orig.dir ∧ kn = orig.fn.name))
    (h : handle_file orig dup .delete tp sp fs = some fs') :
    pathExists fs' orig.dir orig.fn.name = false ∧
      pathExists fs' kd kn = pathExists fs kd kn := by
  simp only [handle_file] at h
  split at h
  · cases h
    exact ⟨pathExists_removePath_self _ _ _,
      pathExists_removePath_other _ _ _ _ _ hk⟩
  · cases h

/-- Witness for C6: deleting a.txt from a directory that also holds
a (1).txt leaves a (1).txt exactly as it was. -/
theorem c6_witness :
    pathExists [⟨["d"], ⟨"a (1)", ".txt"⟩⟩] ["d"] "a.txt" = false ∧
      pathExists [⟨["d"], ⟨"a (1)", ".txt"⟩⟩] ["d"] "a (1).txt" =
        pathExists [⟨["d"], ⟨"a", ".txt"⟩⟩, ⟨["d"], ⟨"a (1)", ".txt"⟩⟩]
          ["d"] "a (1).txt" :=
  c6_delete_removes_original_keeps_keeper ⟨["d"], ⟨"a", ".txt"⟩⟩
    (["d"], "a (1).txt") ["out"] ["src"]
    [⟨["d"], ⟨"a", ".txt"⟩⟩, ⟨["d"], ⟨"a (1)", ".txt"⟩⟩]
    [⟨["d"], ⟨"a (1)", ".txt"⟩⟩] ["d"] "a (1).txt" (by decide) (by decide)

/-- C8: a second resolve of an already-resolved pair, whose original path
is gone, fails cleanly with none (the raised FileNotFoundError of unlink
or shutil.move) rather than succeeding; a failing handle_file performs no
mutation, so the keeper is untouched. -/
theorem c8_second_resolve_fails (orig : FsEntry) (dup : List String × String)
    (a : Action) (tp sp : List String) (fs fs₁ : List FsEntry)
    (h1 : handle_file orig dup a tp sp fs = some fs₁)
    (h2 : pathExists fs₁ orig.dir orig.fn.name = false) :
    handle_file orig dup a tp sp fs₁ = none := by
  cases a with
  | delete => simp [handle_file, h2]
  | move =>
    simp only [handle_file]
    split
    · simp [h2]
    · rfl

/-- Witness for C8: after deleting a.txt, deleting it again fails. -/
theorem c8_witness :
    handle_file ⟨["d"], ⟨"a", ".txt"⟩⟩ (["d"], "a (1).txt") .delete
      ["out"] ["src"] [] = none :=
  c8_second_resolve_fails ⟨["d"], ⟨"a", ".txt"⟩⟩ (["d"], "a (1).txt") .delete
    ["out"] ["src"] [⟨["d"], ⟨"a", ".txt"⟩⟩] [] (by decide) (by decide)

/-- C1 (code-bug evaluation): the pair (src/a.txt, src/a (1).txt) found
in exact-suffix mode and resolved with Move succeeds and mirrors the
original to out/a.txt, but afterwards the keeper still exists at its
marked path src/a (1).txt and no file occupies the vacated path
src/a.txt: handle_file never renames the keeper, although its own
docstring and the spec say the (1) version is renamed in place. -/
theorem c1_move_exact_keeper_not_renamed :
    find_duplicate_pairs ⟨["src"], ⟨"a", ".txt"⟩⟩
        [⟨["src"], ⟨"a", ".txt"⟩⟩, ⟨["src"], ⟨"a (1)", ".txt"⟩⟩] false "" =
      some (["src"], "a (1).txt") ∧
    handle_file ⟨["src"], ⟨"a", ".txt"⟩⟩ (["src"], "a (1).txt") .move
        ["out"] ["src"]
        [⟨["src"], ⟨"a", ".txt"⟩⟩, ⟨["src"], ⟨"a (1)", ".txt"⟩⟩] =
      some [⟨["out"], ⟨"a", ".txt"⟩⟩, ⟨["src"], ⟨"a (1)", ".txt"⟩⟩] ∧
    pathExists [⟨["out"], ⟨"a", ".txt"⟩⟩, ⟨["src"], ⟨"a (1)", ".txt"⟩⟩]
      ["out"] "a.txt" = true ∧
    pathExists [⟨["out"], ⟨"a", ".txt"⟩⟩, ⟨["src"], ⟨"a (1)", ".txt"⟩⟩]
      ["src"] "a (1).txt" = true ∧
    pathExists [⟨["out"], ⟨"a", ".txt"⟩⟩, ⟨["src"], ⟨"a (1)", ".txt"⟩⟩]
      ["src"] "a.txt" = false := by
  decide

/-- C4 counterexample: the matcher raises on the first candidate, and the
collection loop — whose try/except sits outside it — aborts with that
error; the second candidate, which alone would yield a pair, is never
matched.  This refutes the claim that a per-file matching failure never
aborts the enumeration of other candidates. -/
theorem c4_counterexample :
    collectPairs failingMatcher
        [⟨["d"], ⟨"bad", ".txt"⟩⟩, ⟨["d"], ⟨"b", ".txt"⟩⟩] = .error "boom" ∧
      collectPairs failingMatcher [⟨["d"], ⟨"b", ".txt"⟩⟩] =
        .ok [(⟨["d"], ⟨"b", ".txt"⟩⟩, (["d"], "b (1).txt"))] :=
  ⟨rfl, rfl⟩

/-- C4 amended: a matching error on one candidate aborts the whole
traversal: the error propagates out of the collection loop and none of
the remaining candidates is enumerated or matched. -/
theorem c4_matching_error_aborts_traversal
    (m : FsEntry → Except String (Option (List String × String)))
    (f : FsEntry) (rest : List FsEntry) (e : String)
    (hf : strEndsWith f.fn.stem " (1)" = false) (he : m f = .error e) :
    collectPairs m (f :: rest) = .error e := by
  simp only [collectPairs]
  rw [if_neg (by simp [hf]), he]

/-- Witness for the amended C4 at a concrete failing candidate. -/
theorem c4_witness :
    collectPairs failingMatcher
      (⟨["d"], ⟨"bad", ".txt"⟩⟩ :: [⟨["d"], ⟨"b", ".txt"⟩⟩]) = .error "boom" :=
  c4_matching_error_aborts_traversal failingMatcher ⟨["d"], ⟨"bad", ".txt"⟩⟩
    [⟨["d"], ⟨"b", ".txt"⟩⟩] "boom" (by decide) rfl

/-- C5 counterexample: the first pair's original is already absent, so
its resolution raises and the run aborts; the second pair, whose
resolution alone succeeds, is never attempted.  This refutes the claim
that a resolution failure never prevents later resolution attempts. -/
theorem c5_counterexample :
    resolvePairs .delete ["out"] ["src"]
        [(⟨["d"], ⟨"x", ".txt"⟩⟩, (["d"], "x (1).txt")),
          (⟨["d"], ⟨"a", ".txt"⟩⟩, (["d"], "a (1).txt"))]
        [⟨["d"], ⟨"a", ".txt"⟩⟩, ⟨["d"], ⟨"a (1)", ".txt"⟩⟩] =
      .error "resolve" ∧
    resolvePairs .delete ["out"] ["src"]
        [(⟨["d"], ⟨"a", ".txt"⟩⟩, (["d"], "a (1).txt"))]
        [⟨["d"], ⟨"a", ".txt"⟩⟩, ⟨["d"], ⟨"a (1)", ".txt"⟩⟩] =
      .ok [⟨["d"], ⟨"a (1)", ".txt"⟩⟩] :=
  ⟨rfl, rfl⟩

/-- C5 amended: a resolution error on one pair aborts the run: the error
propagates out of the resolution loop, whose try/except is outside it,
and no subsequent pair is attempted. -/
theorem c5_resolution_error_aborts_run (a : Action) (tp sp : List String)
    (orig : FsEntry) (dup : List String × String)
    (rest : List (FsEntry × (List String × String))) (fs : List FsEntry)
    (h : handle_file orig dup a tp sp fs = none) :
    resolvePairs a tp sp ((orig, dup) :: rest) fs = .error "resolve" := by
  simp only [resolvePairs]
  rw [h]

/-- Witness for the amended C5 at a concrete failing first pair. -/
theorem c5_witness :
    resolvePairs .delete ["out"] ["src"]
      ((⟨["d"], ⟨"x", ".txt"⟩⟩, (["d"], "x (1).txt")) ::
        [(⟨["d"], ⟨"a", ".txt"⟩⟩, (["d"], "a (1).txt"))])
      [⟨["d"], ⟨"a", ".txt"⟩⟩, ⟨["d"], ⟨"a (1)", ".txt"⟩⟩] = .error "resolve" :=
  c5_resolution_error_aborts_run .delete ["out"] ["src"]
    ⟨["d"], ⟨"x", ".txt"⟩⟩ (["d"], "x (1).txt")
    [(⟨["d"], ⟨"a", ".txt"⟩⟩, (["d"], "a (1).txt"))]
    [⟨["d"], ⟨"a", ".txt"⟩⟩, ⟨["d"], ⟨"a (1)", ".txt"⟩⟩] (by decide)

/-- C7: process_directory first completes matching, collecting the whole
pair list against the initial filesystem, and only then starts resolving
that list; every collected pair records the match decision taken on the
initial filesystem, so no mutation performed while resolving an earlier
pair can affect the matching decision recorded for a later pair. -/
theorem c7_matching_completes_before_resolution (a : Action)
    (tp sp : List String) (hde : Bool) (te : String)
    (walked : List FsEntry) (fs : List FsEntry)
    (pairs : List (FsEntry × (List String × String)))
    (h : collectPairs (matcherOf fs hde te) walked = .ok pairs) :
    process_directory a tp sp hde te walked fs =
        resolvePairs a tp sp pairs fs ∧
      ∀ p ∈ pairs, find_duplicate_pairs p.1 fs hde te = some p.2 := by
  constructor
  · simp [process_directory, h]
  · intro p hp
    have h3 := (collectPairs_sound _ _ _ h p hp).2.2
    simpa [matcherOf] using h3

/-- Witness for C7 on a tree with two exact-suffix pairs. -/
theorem c7_witness :
    process_directory .delete ["out"] ["src"] false ""
        [⟨["src"], ⟨"a", ".txt"⟩⟩, ⟨["src"], ⟨"a (1)", ".txt"⟩⟩,
          ⟨["src"], ⟨"b", ".txt"⟩⟩, ⟨["src"], ⟨"b (1)", ".txt"⟩⟩]
        [⟨["src"], ⟨"a", ".txt"⟩⟩, ⟨["src"], ⟨"a (1)", ".txt"⟩⟩,
          ⟨["src"], ⟨"b", ".txt"⟩⟩, ⟨["src"], ⟨"b (1)", ".txt"⟩⟩] =
      resolvePairs .delete ["out"] ["src"]
        [(⟨["src"], ⟨"a", ".txt"⟩⟩, (["src"], "a (1).txt")),
          (⟨["src"], ⟨"b", ".txt"⟩⟩, (["src"], "b (1).txt"))]
        [⟨["src"], ⟨"a", ".txt"⟩⟩, ⟨["src"], ⟨"a (1)", ".txt"⟩⟩,
          ⟨["src"], ⟨"b", ".txt"⟩⟩, ⟨["src"], ⟨"b (1)", ".txt"⟩⟩] ∧
    ∀ p ∈ [(⟨["src"], ⟨"a", ".txt"⟩⟩, (["src"], "a (1).txt")),
        (⟨["src"], ⟨"b", ".txt"⟩⟩, (["src"], "b (1).txt"))],
      find_duplicate_pairs p.1
        [⟨["src"], ⟨"a", ".txt"⟩⟩, ⟨["src"], ⟨"a (1)", ".txt"⟩⟩,
          ⟨["src"], ⟨"b", ".txt"⟩⟩, ⟨["src"], ⟨"b (1)", ".txt"⟩⟩]
        false "" = some p.2 :=
  c7_matching_completes_before_resolution .delete ["out"] ["src"] false ""
    [⟨["src"], ⟨"a", ".txt"⟩⟩, ⟨["src"], ⟨"a (1)", ".txt"⟩⟩,
      ⟨["src"], ⟨"b", ".txt"⟩⟩, ⟨["src"], ⟨"b (1)", ".txt"⟩⟩]
    [⟨["src"], ⟨"a", ".txt"⟩⟩, ⟨["src"], ⟨"a (1)", ".txt"⟩⟩,
      ⟨["src"], ⟨"b", ".txt"⟩⟩, ⟨["src"], ⟨"b (1)", ".txt"⟩⟩]
    [(⟨["src"], ⟨"a", ".txt"⟩⟩, (["src"], "a (1).txt")),
      (⟨["src"], ⟨"b", ".txt"⟩⟩, (["src"], "b (1).txt"))] rfl

/-- C9: a walked file whose stem ends with the duplicate marker is never
treated as an original: the collection loop never hands it to the
matcher (matchers agreeing on marker-free files are indistinguishable),
and it never appears as the first component of a collected pair. -/
theorem c9_marked_stem_never_original
    (m m' : FsEntry → Except String (Option (List String × String)))
    (files : List FsEntry)
    (hagree : ∀ f : FsEntry, strEndsWith f.fn.stem " (1)" = false → m f = m' f) :
    collectPairs m files = collectPairs m' files ∧
      ∀ pairs, collectPairs m files = .ok pairs →
        ∀ p ∈ pairs, strEndsWith p.1.fn.stem " (1)" = false :=
  ⟨collectPairs_congr m m' files hagree,
    fun pairs h p hp => ((collectPairs_sound m files pairs h) p hp).2.1⟩

/-- Witness for C9: a matcher that would raise on every marked file runs
the collection loop to the same outcome as one that never raises, on a
walk holding a marked file. -/
theorem c9_witness :
    collectPairs quietMatcher
        [⟨["d"], ⟨"k (1)", ".txt"⟩⟩, ⟨["d"], ⟨"a", ".txt"⟩⟩] =
      collectPairs markerTrapMatcher
        [⟨["d"], ⟨"k (1)", ".txt"⟩⟩, ⟨["d"], ⟨"a", ".txt"⟩⟩] ∧
    ∀ pairs, collectPairs quietMatcher
        [⟨["d"], ⟨"k (1)", ".txt"⟩⟩, ⟨["d"], ⟨"a", ".txt"⟩⟩] = .ok pairs →
      ∀ p ∈ pairs, strEndsWith p.1.fn.stem " (1)" = false :=
  c9_marked_stem_never_original quietMatcher markerTrapMatcher
    [⟨["d"], ⟨"k (1)", ".txt"⟩⟩, ⟨["d"], ⟨"a", ".txt"⟩⟩]
    (fun f hf => by simp [quietMatcher, markerTrapMatcher, hf])

end FoobarDupefile
